import Mathlib

/-!
Shallow embedding of the query-routing pipeline of `app.py`
(bedrock-documentation-assistant).

The remote Bedrock calls are modelled as `Except`-valued inputs: a value
`Except.ok r` stands for a call that returned the (already JSON-decoded)
response `r`, and `Except.error e` stands for a call that raised an exception
whose string rendering is `e`.  Everything the script shows through Streamlit
(`st.error`, `st.markdown`, ...) is modelled as an explicit list of
`DisplayEvent`s, and the Streamlit session-state chat history as an explicit
`List ChatMessage` threaded through the turn handler.
-/

/-- One fragment of `response.output.message.content` in a text-generation
response.  The `text` field is optional, mirroring a JSON object that may or
may not have the `'text'` key (the Python code tests `'text' in item`). -/
structure ContentItem where
  text : Option String
deriving DecidableEq

/-- `''.join(item['text'] for item in content if 'text' in item)`
(`app.py` lines 110 and 208): the concatenation, in order, of the `text`
fields of the fragments that have one. -/
def extract_result (content : List ContentItem) : String :=
  String.join (content.filterMap ContentItem.text)

/-- Python's `str.lower()`: lower-case the string character by character. -/
def strLower (s : String) : String :=
  ⟨s.data.map Char.toLower⟩

/-- The Python `in` operator on strings: `strContainsSub hay needle = true`
iff `needle` occurs contiguously inside `hay`. -/
def strContainsSub (hay needle : String) : Bool :=
  (List.range (hay.data.length + 1)).any fun i =>
    (hay.data.drop i).take needle.data.length == needle.data

/-- Everything the script surfaces through the Streamlit display collaborator
during one turn: the echoed user message, `st.error` reports, the citation
context/source markdown, the "No specific context found" markdown, and the
assistant answer markdown. -/
inductive DisplayEvent where
  | userMsg (q : String)
  | errorMsg (msg : String)
  | contextText (t : String)
  | sourceUri (u : String)
  | noContext
  | answer (t : String)
deriving DecidableEq

/-- `classify_query` (`app.py` lines 67-121), with the
`bedrock_runtime.invoke_model` round-trip (and JSON decode) abstracted as the
`modelCall` argument.  Returns the classification string together with the
display events emitted (an `st.error` report when the call failed). -/
def classify_query (productName : String)
    (modelCall : Except String (List ContentItem)) : String × List DisplayEvent :=
  match modelCall with
  | Except.ok content =>
    let result := extract_result content
    let classification :=
      if strContainsSub (strLower result) (strLower productName) then "Product" else "Generic"
    (classification, [])
  | Except.error e =>
    ("Generic", [DisplayEvent.errorMsg ("Classification error: " ++ e)])

/-- `content.text` of one retrieved reference. -/
structure RefContent where
  text : String
deriving DecidableEq

/-- `location.s3Location` of one retrieved reference. -/
structure S3Location where
  uri : String
deriving DecidableEq

/-- `location` of one retrieved reference. -/
structure RefLocation where
  s3Location : S3Location
deriving DecidableEq

/-- One element of a citation group's `retrievedReferences` list. -/
structure RetrievedReference where
  content : RefContent
  location : RefLocation
deriving DecidableEq

/-- One element of the response's `citations` list. -/
structure CitationGroup where
  retrievedReferences : List RetrievedReference
deriving DecidableEq

/-- The `output` object of a retrieve-and-generate response. -/
structure KBOutput where
  text : String
deriving DecidableEq

/-- A decoded `retrieve_and_generate` response. -/
structure KBResponse where
  output : KBOutput
  citations : List CitationGroup
deriving DecidableEq

/-- `get_kb_response` (`app.py` lines 123-168), with the
`bedrock_agent.retrieve_and_generate` round-trip abstracted as the `kbCall`
argument.  Returns the answer string together with the display events emitted
(citation context/source, the no-context indicator, or an error report). -/
def get_kb_response (kbCall : Except String KBResponse) : String × List DisplayEvent :=
  match kbCall with
  | Except.ok kb =>
    let answer := kb.output.text
    match kb.citations with
    | g :: _ =>
      match g.retrievedReferences with
      | r :: _ =>
        (answer, [DisplayEvent.contextText r.content.text,
                  DisplayEvent.sourceUri r.location.s3Location.uri])
      | [] => (answer, [DisplayEvent.noContext])
    | [] => (answer, [DisplayEvent.noContext])
  | Except.error e =>
    ("", [DisplayEvent.errorMsg ("Knowledge base error: " ++ e)])

/-- `get_generic_response` (`app.py` lines 170-217), with the
`bedrock_runtime.invoke_model` round-trip abstracted as the `modelCall`
argument. -/
def get_generic_response
    (modelCall : Except String (List ContentItem)) : String × List DisplayEvent :=
  match modelCall with
  | Except.ok content => (extract_result content, [])
  | Except.error e =>
    ("", [DisplayEvent.errorMsg ("Generic response error: " ++ e)])

/-- One entry of `st.session_state.chat_history`. -/
structure ChatMessage where
  role : String
  content : String
deriving DecidableEq

/-- Which of the two answer-path functions the turn handler called. -/
inductive Invocation where
  | kb
  | generic
deriving DecidableEq

/-- The per-turn inputs: the query typed by the user and the outcomes of the
three possible remote calls (classification, knowledge base, generic). -/
structure TurnInput where
  query : String
  classifyCall : Except String (List ContentItem)
  kbCall : Except String KBResponse
  genericCall : Except String (List ContentItem)

/-- Everything observable about one processed turn. -/
structure TurnResult where
  history : List ChatMessage
  category : String
  invocations : List Invocation
  response : String
  displayed : List DisplayEvent

/-- The module-level chat handler (`app.py` lines 219-247): echo the user
message, append it to the history, classify, append the classification as a
system entry, dispatch to exactly one of the two answer paths, and render and
append the assistant answer only when it is non-empty. -/
def handle_turn (productName : String) (history : List ChatMessage)
    (inp : TurnInput) : TurnResult :=
  let cls := classify_query productName inp.classifyCall
  let category := cls.1
  let h1 := history ++ [{ role := "user", content := inp.query }]
  let h2 := h1 ++ [{ role := "system", content := "Classified as: " ++ category }]
  let stepResult :=
    if category == "Product" then
      let k := get_kb_response inp.kbCall
      (k.1, ([Invocation.kb], k.2))
    else
      let g := get_generic_response inp.genericCall
      (g.1, ([Invocation.generic], g.2))
  let response := stepResult.1
  let h3 :=
    if response = "" then h2
    else h2 ++ [{ role := "assistant", content := response }]
  let answerEvents :=
    if response = "" then [] else [DisplayEvent.answer response]
  { history := h3
    category := category
    invocations := stepResult.2.1
    response := response
    displayed := [DisplayEvent.userMsg inp.query] ++ cls.2 ++ stepResult.2.2 ++ answerEvents }

/-- `required_env_vars` (`app.py` lines 26-29). -/
def required_env_vars : List String :=
  ["AWS_REGION", "AWS_ACCESS_KEY_ID", "AWS_SECRET_ACCESS_KEY",
   "MODEL_ID", "KNOWLEDGE_BASE_ID", "PRODUCT_NAME", "APP_TITLE"]

/-- Python truthiness of an `os.getenv` result: `None` and `""` are falsy. -/
def envTruthy : Option String → Bool
  | none => false
  | some s => s != ""

/-- `[var for var in required_env_vars if not os.getenv(var)]`
(`app.py` line 30), with the process environment abstracted as a function
from names to optional values. -/
def missing_vars (env : String → Option String) : List String :=
  required_env_vars.filter fun v => !envTruthy (env v)

/-- Python `', '.join(l)`. -/
def joinComma : List String → String
  | [] => ""
  | [s] => s
  | s :: t :: rest => s ++ ", " ++ joinComma (t :: rest)

/-- The `ValueError` message built at `app.py` line 32. -/
def startup_error_msg (env : String → Option String) : String :=
  "Missing required environment variables: " ++ joinComma (missing_vars env)

/-- Processing of successive turns against the shared session history. -/
def run_turns (productName : String) :
    List ChatMessage → List TurnInput → List TurnResult
  | _, [] => []
  | hist, t :: ts =>
    let r := handle_turn productName hist t
    r :: run_turns productName r.history ts

/-- The script's top level: validate the environment (`app.py` lines 26-34)
and only when no required variable is missing process any query turns;
otherwise raise `ValueError` with the enumerating message before any query
can be processed. -/
def app_main (env : String → Option String)
    (turns : List TurnInput) : Except String (List TurnResult) :=
  if missing_vars env = [] then
    Except.ok (run_turns ((env "PRODUCT_NAME").getD "") [] turns)
  else
    Except.error (startup_error_msg env)

/-- The mocked knowledge-base response of the spec's end-to-end reset
scenario. -/
def c3_kb_response : KBResponse :=
  { output := { text := "Hold power for 10s." }
    citations := [{ retrievedReferences :=
      [{ content := { text := "Reset instructions..." }
         location := { s3Location := { uri := "s3://docs/reset.txt" } } }] }] }

/-- The spec's end-to-end reset scenario as one turn: mocked classification
response `"Product"`, mocked KB response `c3_kb_response`. -/
def c3_turn : TurnInput :=
  { query := "How do I reset my device?"
    classifyCall := Except.ok [{ text := some "Product" }]
    kbCall := Except.ok c3_kb_response
    genericCall := Except.ok [{ text := some "Try holding the power button." }] }

/-- A concrete environment in which exactly `AWS_REGION` is unset. -/
def envMissingRegion : String → Option String :=
  fun v => if v = "AWS_REGION" then none else some "x"

/-- A concrete environment in which `PRODUCT_NAME` is set to the empty
string and everything else is set and non-empty. -/
def envEmptyProduct : String → Option String :=
  fun v => if v = "PRODUCT_NAME" then some "" else some "x"

/-- A concrete turn whose classification response mentions the product name
(so the Product path is taken) and whose knowledge-base call fails. -/
def c6_turn : TurnInput :=
  { query := "q"
    classifyCall := Except.ok [{ text := some "Acme" }]
    kbCall := Except.error "boom"
    genericCall := Except.ok [{ text := some "unused" }] }

/-- Two strings with the same character list are equal. -/
theorem string_data_ext (a b : String) (h : a.data = b.data) : a = b := by
  cases a
  cases b
  simp_all

/-- Splitting a list at position `i` and again `m` further along recovers it. -/
theorem take_drop_split {α : Type} (l : List α) (i m : Nat) :
    l.take i ++ (l.drop i).take m ++ (l.drop i).drop m = l := by
  rw [List.append_assoc, List.take_append_drop, List.take_append_drop]

/-- The executable substring test agrees with the mathematical statement
"`needle`'s characters occur contiguously inside `hay`'s characters". -/
theorem strContainsSub_iff (hay needle : String) :
    strContainsSub hay needle = true ↔
      ∃ s t : List Char, s ++ needle.data ++ t = hay.data := by
  unfold strContainsSub
  rw [List.any_eq_true]
  constructor
  · rintro ⟨i, _, hEq⟩
    rw [beq_iff_eq] at hEq
    refine ⟨hay.data.take i, (hay.data.drop i).drop needle.data.length, ?_⟩
    calc
      hay.data.take i ++ needle.data ++ (hay.data.drop i).drop needle.data.length
          = hay.data.take i ++ (hay.data.drop i).take needle.data.length ++
              (hay.data.drop i).drop needle.data.length := by rw [hEq]
      _ = hay.data := take_drop_split hay.data i needle.data.length
  · rintro ⟨s, t, hst⟩
    refine ⟨s.length, ?_, ?_⟩
    · rw [List.mem_range, ← hst]
      simp only [List.length_append]
      omega
    · rw [beq_iff_eq]
      have hdrop : hay.data.drop s.length = needle.data ++ t := by
        rw [← hst, List.append_assoc, List.drop_left]
      rw [hdrop, List.take_left]

/-- `String.join` peels off its head summand. -/
theorem string_join_cons (a : String) (l : List String) :
    String.join (a :: l) = a ++ String.join l := by
  apply string_data_ext
  simp [String.data_join]

/-- `extract_result` of a single all-text fragment is that text. -/
theorem extract_result_singleton (s : String) :
    extract_result [{ text := some s }] = s := by
  apply string_data_ext
  simp [extract_result, String.data_join]

/-- Every element of a comma-joined list occurs contiguously in the join. -/
theorem mem_joinComma : ∀ (l : List String) (v : String), v ∈ l →
    ∃ s t : List Char, s ++ v.data ++ t = (joinComma l).data
  | [], v, h => absurd h (List.not_mem_nil v)
  | [a], v, h => by
    rcases List.mem_singleton.mp h with rfl
    exact ⟨[], [], by simp [joinComma]⟩
  | a :: b :: rest, v, h => by
    rcases List.mem_cons.mp h with rfl | h2
    · refine ⟨[], (", " ++ joinComma (b :: rest)).data, ?_⟩
      simp [joinComma, List.append_assoc]
    · obtain ⟨s, t, hst⟩ := mem_joinComma (b :: rest) v h2
      refine ⟨(a ++ ", ").data ++ s, t, ?_⟩
      simp [joinComma, ← hst, List.append_assoc]

/-- C1: for every query processed in a turn, exactly one of the two answer
paths (knowledge-base retrieval via `get_kb_response`, or generic generation
via `get_generic_response`) is invoked — never both and never neither — with
the knowledge-base path taken exactly when the classification result equals
`"Product"` and the generic path taken otherwise. -/
theorem router_single_dispatch (p : String) (hist : List ChatMessage)
    (inp : TurnInput) :
    ((handle_turn p hist inp).invocations = [Invocation.kb] ∨
      (handle_turn p hist inp).invocations = [Invocation.generic]) ∧
    ((handle_turn p hist inp).invocations = [Invocation.kb] ↔
      (handle_turn p hist inp).category = "Product") := by
  by_cases h : (classify_query p inp.classifyCall).1 = "Product"
  · simp [handle_turn, h]
  · have hb : ((classify_query p inp.classifyCall).1 == "Product") = false := by
      simpa using h
    simp [handle_turn, hb, h]

/-- C2: `classify_query` labels by case-insensitive substring containment: it
returns `"Product"` exactly when the lower-cased product name's characters
occur contiguously in the lower-cased raw response text, and `"Generic"`
otherwise; with product name `"Acme"`, `"this is about acme products"` yields
`"Product"` and `"I don't know"` yields `"Generic"`. -/
theorem classify_substring_rule (p : String) (c : List ContentItem) :
    ((classify_query p (Except.ok c)).1 = "Product" ↔
      ∃ s t : List Char,
        s ++ (strLower p).data ++ t = (strLower (extract_result c)).data) ∧
    ((classify_query p (Except.ok c)).1 = "Product" ∨
      (classify_query p (Except.ok c)).1 = "Generic") ∧
    (classify_query "Acme"
      (Except.ok [{ text := some "this is about acme products" }])).1 = "Product" ∧
    (classify_query "Acme"
      (Except.ok [{ text := some "I don\x27t know" }])).1 = "Generic" := by
  refine ⟨?_, ?_, by decide, by decide⟩
  · show (if strContainsSub (strLower (extract_result c)) (strLower p)
        then "Product" else "Generic") = "Product" ↔ _
    split_ifs with h
    · exact iff_of_true rfl ((strContainsSub_iff _ _).mp h)
    · refine iff_of_false (by decide) fun hex => ?_
      rw [Bool.not_eq_true] at h
      rw [(strContainsSub_iff _ _).mpr hex] at h
      cases h
  · show (if strContainsSub (strLower (extract_result c)) (strLower p)
        then "Product" else "Generic") = "Product" ∨
      (if strContainsSub (strLower (extract_result c)) (strLower p)
        then "Product" else "Generic") = "Generic"
    split_ifs
    · exact Or.inl rfl
    · exact Or.inr rfl

/-- C3 (evaluation at the spec's end-to-end reset scenario): with product name
`"WidgetPro"`, a mocked classification response of `"Product"` and the mocked
KB response of the scenario, the code classifies the query as `"Generic"`
(because `"widgetpro"` is not a substring of `"product"`), invokes the generic
path instead of the knowledge-base path, and does not produce the scenario's
expected answer text. -/
theorem e2e_reset_scenario_eval :
    (handle_turn "WidgetPro" [] c3_turn).category = "Generic" ∧
    (handle_turn "WidgetPro" [] c3_turn).invocations = [Invocation.generic] ∧
    (handle_turn "WidgetPro" [] c3_turn).response = "Try holding the power button." ∧
    ¬ (handle_turn "WidgetPro" [] c3_turn).response = "Hold power for 10s." := by
  refine ⟨by decide, by decide, by decide, by decide⟩

/-- C4: if the classification model call raises any error, `classify_query`
catches it, reports it to the error-display collaborator, and returns
`"Generic"`; the turn then proceeds on the generic path. -/
theorem classify_fail_open (p e q : String) (hist : List ChatMessage)
    (kc : Except String KBResponse) (gc : Except String (List ContentItem)) :
    classify_query p (Except.error e) =
      ("Generic", [DisplayEvent.errorMsg ("Classification error: " ++ e)]) ∧
    (handle_turn p hist
      { query := q, classifyCall := Except.error e,
        kbCall := kc, genericCall := gc }).category = "Generic" ∧
    (handle_turn p hist
      { query := q, classifyCall := Except.error e,
        kbCall := kc, genericCall := gc }).invocations = [Invocation.generic] := by
  refine ⟨rfl, ?_, ?_⟩ <;> simp [handle_turn, classify_query]

/-- C5: on a successful knowledge-base call, exactly the first reference of
the first citation group is surfaced (its `content.text` and
`location.s3Location.uri`) and all later references and groups are ignored;
with an empty citations list, or an empty reference list in the first group,
the no-context indicator is shown instead; in all three cases the returned
answer text is the response's `output.text`. -/
theorem kb_citation_surfacing (out : String) (r : RetrievedReference)
    (rs : List RetrievedReference) (gs : List CitationGroup) :
    get_kb_response (Except.ok
        { output := { text := out },
          citations := { retrievedReferences := r :: rs } :: gs }) =
      (out, [DisplayEvent.contextText r.content.text,
             DisplayEvent.sourceUri r.location.s3Location.uri]) ∧
    get_kb_response (Except.ok { output := { text := out }, citations := [] }) =
      (out, [DisplayEvent.noContext]) ∧
    get_kb_response (Except.ok
        { output := { text := out },
          citations := { retrievedReferences := [] } :: gs }) =
      (out, [DisplayEvent.noContext]) :=
  ⟨rfl, rfl, rfl⟩

/-- C7: the extraction used on text-generation responses concatenates, in
original order, the `text` fields of exactly the fragments that have one,
skipping the rest; `get_generic_response` returns exactly this extraction and
`classify_query`'s label depends on the content only through it. -/
theorem text_fragment_extraction (t p : String) (rest c : List ContentItem) :
    extract_result [] = "" ∧
    extract_result ({ text := some t } :: rest) = t ++ extract_result rest ∧
    extract_result ({ text := none } :: rest) = extract_result rest ∧
    get_generic_response (Except.ok c) = (extract_result c, []) ∧
    (classify_query p (Except.ok c)).1 =
      (classify_query p (Except.ok [{ text := some (extract_result c) }])).1 := by
  refine ⟨rfl, ?_, rfl, rfl, ?_⟩
  · show String.join _ = _
    rw [List.filterMap_cons]
    exact string_join_cons t _
  · show (if strContainsSub (strLower (extract_result c)) (strLower p)
        then "Product" else "Generic") =
      (if strContainsSub
          (strLower (extract_result [{ text := some (extract_result c) }]))
          (strLower p)
        then "Product" else "Generic")
    rw [extract_result_singleton]

/-- C6: any error raised inside `get_kb_response` or `get_generic_response`
is caught at that component boundary, reported to the error-display
collaborator, and the component returns the empty string; a Product-classified
query whose knowledge-base call fails is not retried against the generic path
(the turn completes with the empty result). -/
theorem component_error_policy (p e1 e2 : String) (hist : List ChatMessage)
    (inp : TurnInput)
    (hprod : (classify_query p inp.classifyCall).1 = "Product")
    (hkb : inp.kbCall = Except.error e1) :
    get_kb_response (Except.error e1) =
      ("", [DisplayEvent.errorMsg ("Knowledge base error: " ++ e1)]) ∧
    get_generic_response (Except.error e2) =
      ("", [DisplayEvent.errorMsg ("Generic response error: " ++ e2)]) ∧
    (handle_turn p hist inp).invocations = [Invocation.kb] ∧
    (handle_turn p hist inp).response = "" := by
  refine ⟨rfl, rfl, ?_, ?_⟩ <;>
    simp [handle_turn, hprod, hkb, get_kb_response]

/-- Witness for C6 at a concrete turn: product name `"Acme"`, classification
response mentioning it, knowledge-base call failing with `"boom"`. -/
theorem component_error_policy_witness :
    (handle_turn "Acme" [] c6_turn).invocations = [Invocation.kb] ∧
    (handle_turn "Acme" [] c6_turn).response = "" := by
  have h := component_error_policy "Acme" "boom" "oops" [] c6_turn (by decide) rfl
  exact ⟨h.2.2.1, h.2.2.2⟩

/-- C8: if any required configuration variable is missing, the script raises
its fatal error before any query can be processed, and the single error
message enumerates by name every missing variable. -/
theorem startup_missing_vars_fatal (env : String → Option String)
    (turns : List TurnInput) (h : missing_vars env ≠ []) :
    app_main env turns = Except.error (startup_error_msg env) ∧
    ∀ v ∈ required_env_vars, envTruthy (env v) = false →
      ∃ s t : List Char, s ++ v.data ++ t = (startup_error_msg env).data := by
  constructor
  · simp [app_main, h]
  · intro v hv hfalse
    have hmem : v ∈ missing_vars env := by
      simp [missing_vars, List.mem_filter, hv, hfalse]
    obtain ⟨s, t, hst⟩ := mem_joinComma (missing_vars env) v hmem
    refine ⟨("Missing required environment variables: ").data ++ s, t, ?_⟩
    simp [startup_error_msg, ← hst, List.append_assoc]

/-- Witness for C8 at a concrete environment in which exactly `AWS_REGION`
is unset. -/
theorem startup_missing_vars_fatal_witness :
    app_main envMissingRegion [] =
      Except.error "Missing required environment variables: AWS_REGION" ∧
    ∃ s t : List Char,
      s ++ "AWS_REGION".data ++ t =
        ("Missing required environment variables: AWS_REGION").data := by
  have h := startup_missing_vars_fatal envMissingRegion [] (by decide)
  have hmsg : startup_error_msg envMissingRegion =
      "Missing required environment variables: AWS_REGION" := by decide
  constructor
  · rw [← hmsg]
    exact h.1
  · have h2 := h.2 "AWS_REGION" (by decide) (by decide)
    rw [hmsg] at h2
    exact h2

/-- No answer event is emitted by the classification step. -/
theorem answer_not_in_classify (p a : String)
    (mc : Except String (List ContentItem)) :
    DisplayEvent.answer a ∉ (classify_query p mc).2 := by
  cases mc <;> simp [classify_query]

/-- No answer event is emitted by the knowledge-base step. -/
theorem answer_not_in_kb (a : String) (kc : Except String KBResponse) :
    DisplayEvent.answer a ∉ (get_kb_response kc).2 := by
  rcases kc with e | kb
  · simp [get_kb_response]
  · rcases kb with ⟨o, cs⟩
    rcases cs with _ | ⟨g, gs⟩
    · simp [get_kb_response]
    · rcases g with ⟨refs⟩
      rcases refs with _ | ⟨r, rs⟩ <;> simp [get_kb_response]

/-- No answer event is emitted by the generic-generation step. -/
theorem answer_not_in_generic (a : String)
    (mc : Except String (List ContentItem)) :
    DisplayEvent.answer a ∉ (get_generic_response mc).2 := by
  cases mc <;> simp [get_generic_response]

/-- C9: in every turn the user message and the system classification message
are appended to the chat history unconditionally, while the assistant message
is appended exactly when the chosen path returned a non-empty response; an
answer is rendered exactly when the response is non-empty, and it is that
response. -/
theorem history_append_discipline (p : String) (hist : List ChatMessage)
    (inp : TurnInput) :
    (handle_turn p hist inp).history =
      hist ++ [{ role := "user", content := inp.query },
               { role := "system",
                 content := "Classified as: " ++ (handle_turn p hist inp).category }] ++
        (if (handle_turn p hist inp).response = "" then []
         else [{ role := "assistant",
                 content := (handle_turn p hist inp).response }]) ∧
    ∀ a : String,
      DisplayEvent.answer a ∈ (handle_turn p hist inp).displayed ↔
        a = (handle_turn p hist inp).response ∧
          (handle_turn p hist inp).response ≠ "" := by
  by_cases hc : (classify_query p inp.classifyCall).1 = "Product"
  · by_cases hr : (get_kb_response inp.kbCall).1 = "" <;>
      constructor <;>
        simp [handle_turn, hc, hr, answer_not_in_classify, answer_not_in_kb,
          answer_not_in_generic, List.append_assoc, and_comm]
  · have hb : ((classify_query p inp.classifyCall).1 == "Product") = false := by
      simpa using hc
    by_cases hr : (get_generic_response inp.genericCall).1 = "" <;>
      constructor <;>
        simp [handle_turn, hb, hc, hr, answer_not_in_classify, answer_not_in_kb,
          answer_not_in_generic, List.append_assoc, and_comm]

/-- C10: a required configuration variable set to the empty string is treated
exactly like an absent one: it is falsy, it is listed among the missing
variables, and it triggers the fatal startup error, whose message names it. -/
theorem empty_env_var_missing (env : String → Option String) (v : String)
    (turns : List TurnInput) (hv : v ∈ required_env_vars)
    (he : env v = some "") :
    envTruthy (some "") = envTruthy none ∧
    v ∈ missing_vars env ∧
    ∃ msg, app_main env turns = Except.error msg ∧
      ∃ s t : List Char, s ++ v.data ++ t = msg.data := by
  have hmem : v ∈ missing_vars env := by
    simp [missing_vars, List.mem_filter, hv, he, envTruthy]
  have hne : missing_vars env ≠ [] := by
    intro h0
    rw [h0] at hmem
    cases hmem
  refine ⟨rfl, hmem, startup_error_msg env, ?_, ?_⟩
  · simp [app_main, hne]
  · obtain ⟨s, t, hst⟩ := mem_joinComma (missing_vars env) v hmem
    refine ⟨("Missing required environment variables: ").data ++ s, t, ?_⟩
    simp [startup_error_msg, ← hst, List.append_assoc]

/-- Witness for C10 at a concrete environment in which `PRODUCT_NAME` is set
to the empty string and every other required variable is non-empty. -/
theorem empty_env_var_missing_witness :
    envTruthy (some "") = envTruthy none ∧
    "PRODUCT_NAME" ∈ missing_vars envEmptyProduct ∧
    ∃ msg, app_main envEmptyProduct [] = Except.error msg ∧
      ∃ s t : List Char, s ++ ("PRODUCT_NAME").data ++ t = msg.data :=
  empty_env_var_missing envEmptyProduct "PRODUCT_NAME" [] (by decide) rfl
